import Mathlib

/-!
Verification development for the claude-code plugin session core
(`src/session-manager.ts`, `src/tools/claude-respond.ts`).

The TypeScript source is shallowly embedded: JavaScript `Map`s become
insertion-ordered association lists with JS `Map` semantics, JS truthiness
tests are made explicit, timestamps are naturals (milliseconds), and costs
(IEEE doubles in the source) are modelled as integers since every property
below concerns update cardinality, never numeric rounding.  Externally
visible actions (channel messages, agent wakes, session sends) are collected
into an explicit effect list.
-/

namespace ClaudePlugin

/-! ### JavaScript primitives -/

/-- Lookup in a JS `Map` (first binding of the key; keys are unique). -/
def mapGet {α : Type} (m : List (String × α)) (k : String) : Option α :=
  (m.find? (fun kv => kv.1 = k)).map (fun kv => kv.2)

/-- JS `Map.has`. -/
def mapHas {α : Type} (m : List (String × α)) (k : String) : Bool :=
  m.any (fun kv => kv.1 = k)

/-- JS `Map.set`: update in place if the key exists (keeping insertion
order), otherwise append. -/
def mapSet {α : Type} (m : List (String × α)) (k : String) (v : α) :
    List (String × α) :=
  if mapHas m k then m.map (fun kv => if kv.1 = k then (k, v) else kv)
  else m ++ [(k, v)]

/-- JS `Map.delete`. -/
def mapDelete {α : Type} (m : List (String × α)) (k : String) :
    List (String × α) :=
  m.filter (fun kv => !(kv.1 = k : Bool))

/-- JS `Map.values()` in insertion order. -/
def mapValues {α : Type} (m : List (String × α)) : List α :=
  m.map (fun kv => kv.2)

/-- JS truthiness of a possibly-absent number (`undefined` and `0` are falsy). -/
def jsTruthyOptNat : Option Nat → Bool
  | none => false
  | some n => n != 0

/-- JS truthiness of a possibly-absent string (`undefined` and `""` are falsy). -/
def jsTruthyOptStr : Option String → Bool
  | none => false
  | some s => s != ""

/-- JS `a || b` for an optional string `a` (empty string falls through). -/
def jsOrStr (a : Option String) (b : String) : String :=
  match a with
  | none => b
  | some s => if s = "" then b else s

/-- Decimal digit character, as produced by JS number-to-string conversion. -/
def natDigitChar (n : Nat) : Char := Char.ofNat (48 + n)

/-- Fuelled decimal-digit conversion (`n` itself is always enough fuel,
and the fuel value is irrelevant: see `natToCharsFuel_irrel`). -/
def natToCharsFuel : Nat → Nat → List Char
  | 0, n => [natDigitChar n]
  | fuel + 1, n =>
    if n < 10 then [natDigitChar n]
    else natToCharsFuel fuel (n / 10) ++ [natDigitChar (n % 10)]

/-- Decimal digit list of a natural number (JS `${n}` for integral `n`). -/
def natToChars (n : Nat) : List Char := natToCharsFuel n n

/-- JS string interpolation of a natural number. -/
def natToString (n : Nat) : String := String.mk (natToChars n)

/-- JS string interpolation of an integer. -/
def intToString (i : Int) : String :=
  if i < 0 then "-" ++ natToString i.natAbs else natToString i.natAbs

/-- Last `n` characters of a string (JS `s.slice(-n)`; the source only
applies it to plain text, where UTF-16 units and characters agree). -/
def sliceLast (s : String) (n : Nat) : String :=
  String.mk (s.data.drop (s.data.length - n))

/-- First `n` characters of a string (JS `s.slice(0, n)`). -/
def sliceFirst (s : String) (n : Nat) : String :=
  String.mk (s.data.take n)

/-- Whitespace test of JS `String.prototype.trim` (the characters that
occur in the embedded texts). -/
def isJsWhitespace (c : Char) : Bool :=
  c = ' ' ∨ c = Char.ofNat 9 ∨ c = Char.ofNat 10 ∨ c = Char.ofNat 13

/-- JS `s.trim()`: strip leading and trailing whitespace. -/
def strTrim (s : String) : String :=
  String.mk
    (((s.data.dropWhile isJsWhitespace).reverse.dropWhile isJsWhitespace).reverse)

/-- Civil date (year, month, day) from a count of days since 1970-01-01,
following the standard days-to-civil algorithm used by `Date`/`toISOString`. -/
def civilFromDays (days : Nat) : Nat × Nat × Nat :=
  let z := days + 719468
  let era := z / 146097
  let doe := z % 146097
  let yoe := (doe - doe / 1460 + doe / 36524 - doe / 146096) / 365
  let y := yoe + era * 400
  let doy := doe - (365 * yoe + yoe / 4 - yoe / 100)
  let mp := (5 * doy + 2) / 153
  let d := doy - (153 * mp + 2) / 5 + 1
  let m := if mp < 10 then mp + 3 else mp - 9
  (if m ≤ 2 then y + 1 else y, m, d)

/-- Two-digit zero padding, as in ISO date fields. -/
def pad2 (n : Nat) : String :=
  if n < 10 then "0" ++ natToString n else natToString n

/-- JS `new Date(ms).toISOString().slice(0, 10)`: the UTC calendar date
`YYYY-MM-DD` of an epoch-millisecond timestamp. -/
def dateKeyOfMs (ms : Nat) : String :=
  match civilFromDays (ms / 86400000) with
  | (y, m, d) => natToString y ++ "-" ++ pad2 m ++ "-" ++ pad2 d

/-! ### Data model (`src/types.ts`, `src/session.ts`, `src/session-manager.ts`) -/

/-- Session lifecycle states (`SessionStatus` in `src/types.ts`). -/
inductive SessionStatus
  | starting
  | running
  | completed
  | failed
  | killed
deriving DecidableEq, Repr

/-- Terminal-status test used by `recordSessionMetrics` and `cleanup`. -/
def SessionStatus.isTerminal : SessionStatus → Bool
  | .completed => true
  | .failed => true
  | .killed => true
  | _ => false

/-- The observable fields of a `Session` object (`src/session.ts`).  The
fields mirror the data model: id, pool-unique name, prompt, workdir, model,
status, external correlation id (`claudeSessionId`, unset until the stream
init event), timestamps, accumulated cost, origin identifiers, error text,
multi-turn flag, budget flag, auto-respond counter and the bounded output
history. -/
structure Session where
  id : String
  name : String
  prompt : String
  workdir : String
  model : Option String
  status : SessionStatus
  claudeSessionId : Option String
  startedAt : Nat
  completedAt : Option Nat
  costUsd : Option Int
  originAgentId : Option String
  originChannel : Option String
  error : Option String
  multiTurn : Bool
  budgetExhausted : Bool
  autoRespondCount : Nat
  output : List String
deriving DecidableEq, Repr

/-- Modelled from the spec: `src/session.ts` is not under `src/`.  The
output history is ordered and `getOutput(n)` returns the last `n` lines. -/
def Session.getOutput (s : Session) (n : Nat) : List String :=
  s.output.drop (s.output.length - n)

/-- Modelled from the spec: `src/session.ts` is not under `src/`.
`Session.kill()` acts only on `starting`/`running` sessions: it sets
`status = "killed"` and stamps the completion time (it also aborts the
stream and clears timers, which have no observable state here). -/
def Session.kill (now : Nat) (s : Session) : Session :=
  if s.status = .starting ∨ s.status = .running then
    { s with status := .killed, completedAt := some now }
  else s

/-- Modelled from the spec: `src/session.ts` is not under `src/`.  The
auto-respond counter is reset to zero by `resetAutoRespond()`. -/
def Session.resetAutoRespond (s : Session) : Session :=
  { s with autoRespondCount := 0 }

/-- Modelled from the spec: `src/session.ts` is not under `src/`.  The
auto-respond counter is incremented by `incrementAutoRespond()`. -/
def Session.incrementAutoRespond (s : Session) : Session :=
  { s with autoRespondCount := s.autoRespondCount + 1 }

/-- Spawn configuration (`SessionConfig` in `src/types.ts`, fields as used
by `SessionManager.spawn` and `new Session`). -/
structure SessionConfig where
  prompt : String
  name : Option String
  workdir : String
  model : Option String
  originAgentId : Option String
  originChannel : Option String
  multiTurn : Bool
deriving DecidableEq, Repr

/-- Modelled from the spec: `src/shared.ts` is not under `src/`; the spec
says only that a name is "generated from the task description". -/
def generateSessionName (prompt : String) : String :=
  "claude-" ++ sliceFirst prompt 12

/-- Modelled from the spec: `src/session.ts` is not under `src/`.
Construction assigns a fresh id, stores the config, sets
`status = "starting"` and records `startedAt`; the correlation id, cost,
completion time and error are unset. -/
def Session.create (config : SessionConfig) (name : String) (newId : String)
    (now : Nat) : Session :=
  { id := newId
    name := name
    prompt := config.prompt
    workdir := config.workdir
    model := config.model
    status := .starting
    claudeSessionId := none
    startedAt := now
    completedAt := none
    costUsd := none
    originAgentId := config.originAgentId
    originChannel := config.originChannel
    error := none
    multiTurn := config.multiTurn
    budgetExhausted := false
    autoRespondCount := 0
    output := [] }

/-- The `mostExpensive` metrics pointer (`SessionMetrics` in
`src/session-manager.ts`). -/
structure MostExpensive where
  id : String
  name : String
  costUsd : Int
  prompt : String
deriving DecidableEq, Repr

/-- Count of sessions by terminal state (`sessionsByStatus`). -/
structure StatusCounts where
  completed : Nat
  failed : Nat
  killed : Nat
deriving DecidableEq, Repr

/-- Aggregated metrics (`SessionMetrics` in `src/session-manager.ts`). -/
structure SessionMetrics where
  totalCostUsd : Int
  costPerDay : List (String × Int)
  sessionsByStatus : StatusCounts
  totalLaunched : Nat
  totalDurationMs : Int
  sessionsWithDuration : Nat
  mostExpensive : Option MostExpensive
deriving DecidableEq, Repr

/-- The all-zero initial metrics record. -/
def initialMetrics : SessionMetrics :=
  { totalCostUsd := 0
    costPerDay := []
    sessionsByStatus := { completed := 0, failed := 0, killed := 0 }
    totalLaunched := 0
    totalDurationMs := 0
    sessionsWithDuration := 0
    mostExpensive := none }

/-- Persisted snapshot of a finished session (`PersistedSessionInfo`). -/
structure PersistedSessionInfo where
  claudeSessionId : String
  name : String
  prompt : String
  workdir : String
  model : Option String
  completedAt : Option Nat
  status : SessionStatus
  costUsd : Option Int
  originAgentId : Option String
  originChannel : Option String
deriving DecidableEq, Repr

/-- Outward side effects of the manager, in emission order:
`emitToChannel` is a NotificationRouter channel message (the observer
message behind `deliverToTelegram`), `onSessionComplete` the router's
completion notification, `wakeDirect` a detached `openclaw agent` wake,
`wakeBroadcast` a broadcast system event (`fireSystemEventWithRetry`),
`sendToSession`/`interruptSession` the follow-up delivery of
`claude_respond`. -/
inductive Effect
  | emitToChannel (channel text : String)
  | onSessionComplete (sessionId : String)
  | wakeDirect (agentId eventText : String) (deliverArgs : List String)
  | wakeBroadcast (eventText : String)
  | sendToSession (sessionId message : String)
  | interruptSession (sessionId : String)
deriving DecidableEq, Repr

/-- The mutable state of a `SessionManager`. -/
structure ManagerState where
  sessions : List (String × Session)
  maxSessions : Nat
  maxPersistedSessions : Nat
  notificationRouter : Bool
  lastWaitingEventTimestamps : List (String × Nat)
  pendingRetryTimers : List Nat
  persistedSessions : List (String × PersistedSessionInfo)
  metrics : SessionMetrics
deriving DecidableEq, Repr

/-! ### SessionManager operations (`src/session-manager.ts`) -/

/-- Debounce interval for waiting-for-input events (ms),
`WAITING_EVENT_DEBOUNCE_MS`. -/
def WAITING_EVENT_DEBOUNCE_MS : Nat := 5000

/-- Retention window for terminal sessions (ms), `CLEANUP_MAX_AGE_MS`. -/
def CLEANUP_MAX_AGE_MS : Nat := 3600000

/-- The `-i` suffix candidate of `uniqueName`. -/
def suffixName (base : String) (i : Nat) : String :=
  base ++ "-" ++ natToString i

/-- Search of `uniqueName`: the `let i = 2; while (existing.has(...)) i++`
loop, with explicit fuel (the caller supplies enough fuel — by a counting
argument a free suffix is always found within `existing.length + 1`
candidates). -/
def uniqueNameLoop (existing : List String) (base : String) :
    Nat → Nat → Nat
  | 0, i => i
  | fuel + 1, i =>
    if suffixName base i ∈ existing then
      uniqueNameLoop existing base fuel (i + 1)
    else i

/-- `uniqueName(baseName)`: ensure the name is unique among existing
sessions, appending `-2`, `-3`, … on collision. -/
def uniqueName (liveSessions : List Session) (baseName : String) : String :=
  let existing := liveSessions.map (fun s => s.name)
  if baseName ∈ existing then
    suffixName baseName
      (uniqueNameLoop existing baseName (existing.length + 1) 2)
  else baseName

/-- Count of pooled sessions whose status is `starting` or `running`
(the `activeCount` filter in `spawn`). -/
def activeCount (m : ManagerState) : Nat :=
  ((mapValues m.sessions).filter
    (fun s => decide (s.status = .starting ∨ s.status = .running))).length

/-- `recordSessionMetrics(session)`: fold one finished session into the
metrics aggregate. -/
def recordSessionMetrics (mt : SessionMetrics) (s : Session) :
    SessionMetrics :=
  let cost := s.costUsd.getD 0
  let dateKey := dateKeyOfMs (s.completedAt.getD s.startedAt)
  { totalCostUsd := mt.totalCostUsd + cost
    costPerDay :=
      mapSet mt.costPerDay dateKey ((mapGet mt.costPerDay dateKey).getD 0 + cost)
    sessionsByStatus :=
      match s.status with
      | .completed => { mt.sessionsByStatus with
          completed := mt.sessionsByStatus.completed + 1 }
      | .failed => { mt.sessionsByStatus with
          failed := mt.sessionsByStatus.failed + 1 }
      | .killed => { mt.sessionsByStatus with
          killed := mt.sessionsByStatus.killed + 1 }
      | _ => mt.sessionsByStatus
    totalLaunched := mt.totalLaunched
    totalDurationMs :=
      if jsTruthyOptNat s.completedAt then
        mt.totalDurationMs + ((s.completedAt.getD 0 : Int) - (s.startedAt : Int))
      else mt.totalDurationMs
    sessionsWithDuration :=
      if jsTruthyOptNat s.completedAt then mt.sessionsWithDuration + 1
      else mt.sessionsWithDuration
    mostExpensive :=
      match mt.mostExpensive with
      | none =>
        some { id := s.id, name := s.name, costUsd := cost,
               prompt := if s.prompt.length > 80 then
                   sliceFirst s.prompt 80 ++ "..." else s.prompt }
      | some best =>
        if cost > best.costUsd then
          some { id := s.id, name := s.name, costUsd := cost,
                 prompt := if s.prompt.length > 80 then
                     sliceFirst s.prompt 80 ++ "..." else s.prompt }
        else some best }

/-- `persistSession(session)`: record metrics unless a record for the
session id is already stored, then (only if the correlation id is known)
store the snapshot under the three alias keys. -/
def persistSession (m : ManagerState) (s : Session) : ManagerState :=
  let alreadyPersisted := mapHas m.persistedSessions s.id
  let m :=
    if alreadyPersisted then m
    else { m with metrics := recordSessionMetrics m.metrics s }
  match s.claudeSessionId with
  | none => m
  | some csid =>
    let info : PersistedSessionInfo :=
      { claudeSessionId := csid
        name := s.name
        prompt := s.prompt
        workdir := s.workdir
        model := s.model
        completedAt := s.completedAt
        status := s.status
        costUsd := s.costUsd
        originAgentId := s.originAgentId
        originChannel := s.originChannel }
    let stored :=
      mapSet (mapSet (mapSet m.persistedSessions s.id info) s.name info)
        csid info
    { m with persistedSessions := stored }

/-- `buildDeliverArgs(originChannel)`: parse a session origin channel into
`--deliver` CLI arguments. -/
def buildDeliverArgs (originChannel : Option String) : List String :=
  match originChannel with
  | none => []
  | some ch =>
    if ch = "unknown" ∨ ch = "gateway" ∨ ch = "" then []
    else
      let parts := ch.split (fun c => c = '|')
      if parts.length < 2 then []
      else if parts.length ≥ 3 then
        ["--deliver", "--reply-channel", parts.headD "",
         "--reply-account", (parts.drop 1).headD "",
         "--reply-to", String.intercalate "|" (parts.drop 2)]
      else
        ["--deliver", "--reply-channel", parts.headD "",
         "--reply-to", (parts.drop 1).headD ""]

/-- `deliverToTelegram(session, text, label)`: emit the observer message on
the session origin channel through the NotificationRouter; a no-op when no
router is wired. -/
def deliverToTelegram (m : ManagerState) (s : Session) (text : String) :
    List Effect :=
  if m.notificationRouter then
    [Effect.emitToChannel (s.originChannel.getD "unknown") text]
  else []

/-- `fireSystemEventWithRetry(eventText, ...)`: fire the broadcast system
event (the retry timer is only registered in the asynchronous failure
callback, outside this synchronous model). -/
def fireSystemEventWithRetry (eventText : String) : List Effect :=
  [Effect.wakeBroadcast eventText]

/-- Truthiness of `session.originAgentId?.trim()` in `wakeAgent`. -/
def agentIdKnown (s : Session) : Bool :=
  match s.originAgentId with
  | none => false
  | some a => strTrim a != ""

/-- `wakeAgent(session, eventText, telegramText, label)`: observer message
first, then a direct-addressed detached wake when an owning-agent id is
known, else the broadcast fallback. -/
def wakeAgent (m : ManagerState) (s : Session)
    (eventText telegramText : String) : List Effect :=
  deliverToTelegram m s telegramText ++
    (match s.originAgentId with
     | none => fireSystemEventWithRetry eventText
     | some a =>
       if strTrim a = "" then fireSystemEventWithRetry eventText
       else [Effect.wakeDirect (strTrim a) eventText
               (buildDeliverArgs s.originChannel)])

/-- Output preview of `triggerAgentEvent`/`triggerWaitingForInputEvent`:
last 5 output lines joined, capped at the trailing 500 characters. -/
def outputPreview (s : Session) : String :=
  let joined := String.intercalate "\n" (s.getOutput 5)
  if joined.length > 500 then sliceLast joined 500 else joined

/-- Markdown-stripping `preview.replace(/[*_~]|backtick/g, "")` of the
completed-session telegram text. -/
def cleanMarkdown (t : String) : String :=
  String.mk (t.data.filter (fun c =>
    !(c = '*' ∨ c = Char.ofNat 96 ∨ c = '_' ∨ c = Char.ofNat 126 : Bool)))

/-- Event text of the completed branch of `triggerAgentEvent`. -/
def completedEventText (s : Session) : String :=
  String.intercalate "\n"
    ["Claude Code session completed.",
     "Name: " ++ s.name ++ " | ID: " ++ s.id,
     "Status: completed",
     "",
     "Output preview:",
     outputPreview s,
     "",
     "Use claude_output(session=\x27" ++ s.id ++
       "\x27, full=true) to get the full result and transmit the analysis to the user."]

/-- Telegram text of the completed branch of `triggerAgentEvent` (the
`toFixed(4)` decimal rendering of the IEEE cost is abstracted by
`intToString`). -/
def completedTelegramText (s : Session) : String :=
  let cleanPreview := cleanMarkdown (outputPreview s)
  String.intercalate "\n"
    (["✅ [" ++ s.name ++ "] Completed",
      "   📁 " ++ s.workdir,
      "   💰 $" ++ intToString (s.costUsd.getD 0)] ++
     (if strTrim cleanPreview = "" then [] else ["", cleanPreview]))

/-- Notification text of the failed/killed branch of `triggerAgentEvent`. -/
def failureTelegramText (s : Session) : String :=
  let promptSummary :=
    if s.prompt.length > 60 then sliceFirst s.prompt 60 ++ "..." else s.prompt
  String.intercalate "\n"
    ([(if s.status = .killed then "⛔" else "❌") ++ " [" ++ s.name ++ "] " ++
        (if s.status = .killed then "Killed" else "Failed"),
      "   📁 " ++ s.workdir,
      "   📝 \"" ++ promptSummary ++ "\""] ++
     (match s.error with
      | some e => ["   ⚠️ " ++ e]
      | none => []))

/-- `triggerAgentEvent(session)`: classify outward dispatch by terminal
status — completed sessions wake the agent, failed/killed sessions get an
observer message only; finally drop the debounce timestamp. -/
def triggerAgentEvent (m : ManagerState) (s : Session) :
    ManagerState × List Effect :=
  let effects :=
    if s.status = .completed then
      wakeAgent m s (completedEventText s) (completedTelegramText s)
    else
      deliverToTelegram m s (failureTelegramText s)
  ({ m with lastWaitingEventTimestamps :=
      mapDelete m.lastWaitingEventTimestamps s.id }, effects)

/-- Debounce guard of `triggerWaitingForInputEvent`: JS
`lastTs && now - lastTs < WAITING_EVENT_DEBOUNCE_MS` (a stored timestamp of
`0` is falsy; Nat subtraction agrees with JS here because a clock running
backwards also passes the `< 5000` test). -/
def debounceBlocked (lastTs : Option Nat) (now : Nat) : Bool :=
  match lastTs with
  | none => false
  | some t => t != 0 && now - t < WAITING_EVENT_DEBOUNCE_MS

/-- Telegram text of `triggerWaitingForInputEvent`. -/
def waitingTelegramText (s : Session) : String :=
  let preview := outputPreview s
  "🔔 [" ++ s.name ++ "] Claude asks:\n" ++
    (if preview.length > 200 then sliceLast preview 200 else preview)

/-- Agent event text of `triggerWaitingForInputEvent`. -/
def waitingEventText (s : Session) : String :=
  String.intercalate "\n"
    [(if s.multiTurn then "Multi-turn session" else "Session") ++
       " is waiting for input.",
     "Name: " ++ s.name ++ " | ID: " ++ s.id,
     "",
     "Last output:",
     outputPreview s,
     "",
     "Use claude_respond(session=\x27" ++ s.id ++
       "\x27, message=\x27...\x27) to send a reply, or claude_output(session=\x27" ++
       s.id ++ "\x27) to see full context."]

/-- State update of the non-debounced path of
`triggerWaitingForInputEvent`:
`this.lastWaitingEventTimestamps.set(session.id, now)`. -/
def stampWaiting (now : Nat) (m : ManagerState) (s : Session) : ManagerState :=
  { m with lastWaitingEventTimestamps :=
      mapSet m.lastWaitingEventTimestamps s.id now }

/-- `triggerWaitingForInputEvent(session)`: the observer message is sent
unconditionally; the agent wake is debounced per session (5 s). -/
def triggerWaitingForInputEvent (now : Nat) (m : ManagerState) (s : Session) :
    ManagerState × List Effect :=
  let telegramText := waitingTelegramText s
  if debounceBlocked (mapGet m.lastWaitingEventTimestamps s.id) now then
    (m, deliverToTelegram m s telegramText)
  else
    let m1 := stampWaiting now m s
    (m1, wakeAgent m1 s (waitingEventText s) telegramText)

/-- `resolve(idOrName)`: exact id match first, then first name match. -/
def resolve (m : ManagerState) (idOrName : String) : Option Session :=
  match mapGet m.sessions idOrName with
  | some s => some s
  | none => (mapValues m.sessions).find? (fun s => s.name = idOrName)

/-- Case-insensitive hex digit, character class `[0-9a-f]` under flag `i`. -/
def isHexDigit (c : Char) : Bool :=
  (c ≥ '0' && c ≤ '9') || (c ≥ 'a' && c ≤ 'f') || (c ≥ 'A' && c ≤ 'F')

/-- The 8-4-4-4-12 hex UUID shape tested by `resolveClaudeSessionId`
(`/^[0-9a-f]...$/i` on the whole string). -/
def isUuidShape (s : String) : Bool :=
  let groups := s.split (fun c => c = '-')
  groups.map String.length = [8, 4, 4, 4, 12] &&
    groups.all (fun g => g.data.all isHexDigit)

/-- `getPersistedSession(ref)`: persisted record under any alias key. -/
def getPersistedSession (m : ManagerState) (ref : String) :
    Option PersistedSessionInfo :=
  mapGet m.persistedSessions ref

/-- `resolveClaudeSessionId(ref)`: live session correlation id, else a
persisted record, else `ref` verbatim if it is UUID-shaped. -/
def resolveClaudeSessionId (m : ManagerState) (ref : String) : Option String :=
  match resolve m ref with
  | some active =>
    if jsTruthyOptStr active.claudeSessionId then active.claudeSessionId
    else match getPersistedSession m ref with
      | some persisted =>
        if persisted.claudeSessionId != "" then some persisted.claudeSessionId
        else if isUuidShape ref then some ref else none
      | none => if isUuidShape ref then some ref else none
  | none =>
    match getPersistedSession m ref with
    | some persisted =>
      if persisted.claudeSessionId != "" then some persisted.claudeSessionId
      else if isUuidShape ref then some ref else none
    | none => if isUuidShape ref then some ref else none

/-- Deduplication pass of `listPersistedSessions` (one record per Claude
session id, keeping the first-seen alias in insertion order). -/
def dedupeByCsid : List PersistedSessionInfo → List String →
    List PersistedSessionInfo
  | [], _ => []
  | info :: rest, seen =>
    if info.claudeSessionId ∈ seen then dedupeByCsid rest seen
    else info :: dedupeByCsid rest (info.claudeSessionId :: seen)

/-- Sort key of `listPersistedSessions`: `completedAt ?? 0`. -/
def completedKey (v : PersistedSessionInfo) : Nat :=
  v.completedAt.getD 0

/-- Comparator of `listPersistedSessions`:
`(a, b) => (b.completedAt ?? 0) - (a.completedAt ?? 0)` sorts newest
first; JS `Array.prototype.sort` is stable, as is `List.insertionSort`. -/
def byCompletedDesc (a b : PersistedSessionInfo) : Prop :=
  completedKey b ≤ completedKey a

instance : DecidableRel byCompletedDesc := fun a b =>
  inferInstanceAs (Decidable (completedKey b ≤ completedKey a))

/-- `listPersistedSessions()`: deduplicate the alias map and sort newest
first. -/
def listPersistedSessions (m : ManagerState) : List PersistedSessionInfo :=
  List.insertionSort byCompletedDesc
    (dedupeByCsid (mapValues m.persistedSessions) [])

/-- `kill(id)`: no-op on an unknown id; otherwise kill the session, record
metrics when no persisted record exists yet, persist, send the completion
notification and fire the terminal agent event.  Returns the new state, the
emitted effects and the boolean result. -/
def kill (now : Nat) (m : ManagerState) (id : String) :
    ManagerState × List Effect × Bool :=
  match mapGet m.sessions id with
  | none => (m, [], false)
  | some session =>
    let session := Session.kill now session
    let m := { m with sessions := mapSet m.sessions id session }
    let m :=
      if mapHas m.persistedSessions session.id then m
      else { m with metrics := recordSessionMetrics m.metrics session }
    let m := persistSession m session
    let notifyEffects :=
      if m.notificationRouter then [Effect.onSessionComplete session.id]
      else []
    let (m, agentEffects) := triggerAgentEvent m session
    (m, notifyEffects ++ agentEffects, true)

/-- Iteration of `killAll` over the pool snapshot. -/
def killAllLoop (now : Nat) : List (String × Session) → ManagerState →
    List Effect → ManagerState × List Effect
  | [], m, acc => (m, acc)
  | (id, s) :: rest, m, acc =>
    if s.status = .starting ∨ s.status = .running then
      match kill now m id with
      | (m1, effects, _) => killAllLoop now rest m1 (acc ++ effects)
    else killAllLoop now rest m acc

/-- `killAll()`: kill every `starting`/`running` session through `kill`,
then clear the pending retry timers. -/
def killAll (now : Nat) (m : ManagerState) : ManagerState × List Effect :=
  match killAllLoop now m.sessions m [] with
  | (m1, effects) => ({ m1 with pendingRetryTimers := [] }, effects)

/-- Eligibility test of the live-pool sweep in `cleanup` (JS
`session.completedAt && terminal && now - completedAt > 1h`). -/
def cleanupEligible (now : Nat) (s : Session) : Bool :=
  jsTruthyOptNat s.completedAt && s.status.isTerminal &&
    decide (now - s.completedAt.getD 0 > CLEANUP_MAX_AGE_MS)

/-- Phase 1 of `cleanup()`: persist-then-delete every session terminal for
longer than the retention window, dropping its debounce timestamp. -/
def cleanupLiveSweep (now : Nat) (m : ManagerState) : ManagerState :=
  m.sessions.foldl
    (fun acc kv =>
      if cleanupEligible now kv.2 then
        let acc1 := persistSession acc kv.2
        { acc1 with
          sessions := mapDelete acc1.sessions kv.1
          lastWaitingEventTimestamps :=
            mapDelete acc1.lastWaitingEventTimestamps kv.1 }
      else acc)
    m

/-- Phase 2 of `cleanup()`: when the deduplicated persisted count exceeds
the cap, evict the oldest records beyond the cap, removing every alias key
of each evicted record. -/
def cleanupEvict (m : ManagerState) : ManagerState :=
  let unique := listPersistedSessions m
  if unique.length > m.maxPersistedSessions then
    let toEvict := unique.drop m.maxPersistedSessions
    let remaining :=
      toEvict.foldl
        (fun ps info =>
          ps.filter (fun kv =>
            !(kv.2.claudeSessionId = info.claudeSessionId : Bool)))
        m.persistedSessions
    { m with persistedSessions := remaining }
  else m

/-- `cleanup()`: live-pool sweep, then persisted-record eviction. -/
def cleanup (now : Nat) (m : ManagerState) : ManagerState :=
  cleanupEvict (cleanupLiveSweep now m)

/-- Result of `spawn(config)`: the thrown error or the new session, the
state after the call, and the emitted effects. -/
structure SpawnResult where
  result : Except String Session
  state : ManagerState
  effects : List Effect
deriving Repr

/-- `spawn(config)`: throw a capacity error at the pool limit; otherwise
derive and de-duplicate the name, register the new session, bump the launch
counter, start it and send the launch notification. -/
def spawn (config : SessionConfig) (newId : String) (now : Nat)
    (m : ManagerState) : SpawnResult :=
  if activeCount m ≥ m.maxSessions then
    { result := Except.error
        ("Max sessions reached (" ++ natToString m.maxSessions ++
         "). Kill a session first.")
      state := m
      effects := [] }
  else
    let baseName := jsOrStr config.name (generateSessionName config.prompt)
    let name := uniqueName (mapValues m.sessions) baseName
    let session := Session.create config name newId now
    let m1 := { m with
      sessions := mapSet m.sessions session.id session
      metrics := { m.metrics with
        totalLaunched := m.metrics.totalLaunched + 1 } }
    let promptSummary :=
      if session.prompt.length > 80 then sliceFirst session.prompt 80 ++ "..."
      else session.prompt
    { result := Except.ok session
      state := m1
      effects := deliverToTelegram m1 session
        ("↩️ [" ++ session.name ++ "] Launched:\n" ++ promptSummary) }

/-! ### The `claude_respond` tool (`src/tools/claude-respond.ts`) -/

/-- Parameters of the `claude_respond` tool call (absent optional booleans
are falsy). -/
structure RespondParams where
  session : String
  message : String
  interrupt : Bool
  userInitiated : Bool
deriving DecidableEq, Repr

/-- Observable outcome of a `claude_respond` tool call. -/
inductive RespondOutcome
  | notFound
  | notRunning
  | limitReached
  | sent
  | sendFailed
deriving DecidableEq, Repr

/-- Truncated echo of the responded message. -/
def respondedTelegramText (s : Session) (message : String) : String :=
  "↩️ [" ++ s.name ++ "] Responded:\n" ++
    (if message.length > 200 then sliceFirst message 200 ++ "..." else message)

/-- The `execute` body of the `claude_respond` tool: reject non-running
sessions, enforce the auto-respond cap for agent-initiated calls, reset the
counter on user-initiated calls, send, then increment the counter for
agent-initiated sends.  `sendOk` models whether
`session.interrupt()`/`session.sendMessage()` succeed; the manager and the
resolved session object are aliased, so session mutations write back into
the pool under the session id. -/
def claudeRespondExec (maxAutoResponds : Option Nat) (p : RespondParams)
    (sendOk : Bool) (m : ManagerState) :
    RespondOutcome × ManagerState × List Effect :=
  match resolve m p.session with
  | none => (.notFound, m, [])
  | some session =>
    if session.status ≠ .running then (.notRunning, m, [])
    else
      let maxA := maxAutoResponds.getD 10
      if p.userInitiated then
        let session := session.resetAutoRespond
        let m := { m with sessions := mapSet m.sessions session.id session }
        if sendOk then
          (.sent, m,
           (if p.interrupt then [Effect.interruptSession session.id] else []) ++
             [Effect.sendToSession session.id p.message] ++
             deliverToTelegram m session (respondedTelegramText session p.message))
        else (.sendFailed, m,
          if p.interrupt then [Effect.interruptSession session.id] else [])
      else if session.autoRespondCount ≥ maxA then (.limitReached, m, [])
      else if sendOk then
        let sent :=
          (if p.interrupt then [Effect.interruptSession session.id] else []) ++
            [Effect.sendToSession session.id p.message]
        let session := session.incrementAutoRespond
        let m := { m with sessions := mapSet m.sessions session.id session }
        (.sent, m,
         sent ++ deliverToTelegram m session (respondedTelegramText session p.message))
      else (.sendFailed, m,
        if p.interrupt then [Effect.interruptSession session.id] else [])

/-! ### Effect observations -/

/-- Observer (channel) message test. -/
def Effect.isObserverMsg : Effect → Bool
  | .emitToChannel _ _ => true
  | _ => false

/-- Direct agent wake test. -/
def Effect.isDirectWake : Effect → Bool
  | .wakeDirect _ _ _ => true
  | _ => false

/-- Broadcast agent wake test. -/
def Effect.isBroadcastWake : Effect → Bool
  | .wakeBroadcast _ => true
  | _ => false

/-- Out-of-band agent wake of either kind. -/
def Effect.isWakeAttempt (e : Effect) : Bool :=
  e.isDirectWake || e.isBroadcastWake

/-- Whether an effect list sends an observer message. -/
def hasObserverMsg (effects : List Effect) : Bool :=
  effects.any Effect.isObserverMsg

/-- Whether an effect list attempts an agent wake. -/
def hasWakeAttempt (effects : List Effect) : Bool :=
  effects.any Effect.isWakeAttempt

/-- Whether an effect list attempts a direct agent wake. -/
def hasDirectWake (effects : List Effect) : Bool :=
  effects.any Effect.isDirectWake

/-- Whether an effect list attempts a broadcast agent wake. -/
def hasBroadcastWake (effects : List Effect) : Bool :=
  effects.any Effect.isBroadcastWake

/-- Whether an effect list delivers a follow-up message into a session. -/
def hasSessionSend (effects : List Effect) : Bool :=
  effects.any (fun e => match e with
    | .sendToSession _ _ => true
    | _ => false)

/-! ### Concrete states used by the claim instances -/

/-- A freshly spawned session: still `starting`, no correlation id. -/
def demoSession : Session :=
  { id := "s1", name := "job", prompt := "do things", workdir := "/w",
    model := none, status := .starting, claudeSessionId := none,
    startedAt := 0, completedAt := none, costUsd := none,
    originAgentId := none, originChannel := some "telegram|123",
    error := none, multiTurn := true, budgetExhausted := false,
    autoRespondCount := 0, output := [] }

/-- A manager holding `demoSession`, with a wired router and one pending
retry timer. -/
def demoManager : ManagerState :=
  { sessions := [("s1", demoSession)], maxSessions := 5,
    maxPersistedSessions := 50, notificationRouter := true,
    lastWaitingEventTimestamps := [], pendingRetryTimers := [7],
    persistedSessions := [], metrics := initialMetrics }

/-- A persisted snapshot with the given correlation id, name and
completion time. -/
def infoOf (csid nm : String) (completedAt : Nat) : PersistedSessionInfo :=
  { claudeSessionId := csid, name := nm, prompt := "p", workdir := "/w",
    model := none, completedAt := some completedAt, status := .completed,
    costUsd := some 1, originAgentId := none, originChannel := none }

/-- A manager with eviction cap 2 and three distinct persisted sessions,
each stored under its three alias keys. -/
def mC3 : ManagerState :=
  { sessions := [], maxSessions := 5, maxPersistedSessions := 2,
    notificationRouter := true, lastWaitingEventTimestamps := [],
    pendingRetryTimers := [],
    persistedSessions :=
      [("id1", infoOf "c1" "n1" 100), ("n1", infoOf "c1" "n1" 100),
       ("c1", infoOf "c1" "n1" 100), ("id2", infoOf "c2" "n2" 200),
       ("n2", infoOf "c2" "n2" 200), ("c2", infoOf "c2" "n2" 200),
       ("id3", infoOf "c3" "n3" 300), ("n3", infoOf "c3" "n3" 300),
       ("c3", infoOf "c3" "n3" 300)],
    metrics := initialMetrics }

/-- A spawn request with the explicit name `build`. -/
def cfgBuild : SessionConfig :=
  { prompt := "build the project", name := some "build", workdir := "/w",
    model := none, originAgentId := none, originChannel := none,
    multiTurn := true }

/-- An empty manager pool. -/
def mEmpty : ManagerState :=
  { sessions := [], maxSessions := 5, maxPersistedSessions := 50,
    notificationRouter := true, lastWaitingEventTimestamps := [],
    pendingRetryTimers := [], persistedSessions := [],
    metrics := initialMetrics }

/-- The pool after three spawns that all request the name `build`. -/
def afterThreeBuilds : ManagerState :=
  (spawn cfgBuild "i3" 2
    ((spawn cfgBuild "i2" 1 ((spawn cfgBuild "i1" 0 mEmpty).state)).state)).state

/-- A running variant of `demoSession`. -/
def sRunning : Session := { demoSession with status := .running }

/-- A manager holding the running session. -/
def mRunning : ManagerState :=
  { demoManager with sessions := [("s1", sRunning)] }

/-- A completed session with a known owning agent and correlation id. -/
def sCompleted : Session :=
  { demoSession with
    status := .completed
    completedAt := some 500
    originAgentId := some "agent-1"
    claudeSessionId := some "0123abcd-0000-1111-2222-0123456789ab" }

/-- A running session whose auto-respond counter is at the default cap. -/
def sMaxed : Session := { sRunning with autoRespondCount := 10 }

/-- A manager holding the capped running session. -/
def mMaxed : ManagerState :=
  { demoManager with sessions := [("s1", sMaxed)] }

/-- An agent-initiated `claude_respond` call addressed by session name. -/
def respondParams : RespondParams :=
  { session := "job", message := "hi", interrupt := false,
    userInitiated := false }

/-- A killed session. -/
def sKilled : Session :=
  { demoSession with status := .killed, completedAt := some 500 }

/-! ### Association-list facts for the JS `Map` model -/

theorem mapGet_nil {α : Type} (k : String) :
    mapGet ([] : List (String × α)) k = none := rfl

theorem mapGet_cons {α : Type} (k1 : String) (v1 : α) (rest : List (String × α))
    (k : String) :
    mapGet ((k1, v1) :: rest) k =
      if k1 = k then some v1 else mapGet rest k := by
  by_cases h : k1 = k <;> simp [mapGet, List.find?_cons, h]

theorem mapHas_cons {α : Type} (k1 : String) (v1 : α) (rest : List (String × α))
    (k : String) :
    mapHas ((k1, v1) :: rest) k = ((k1 = k : Bool) || mapHas rest k) := by
  simp [mapHas]

theorem mapHas_false_iff {α : Type} (m : List (String × α)) (k : String) :
    mapHas m k = false ↔ mapGet m k = none := by
  induction m with
  | nil => simp [mapHas, mapGet]
  | cons kv rest ih =>
    obtain ⟨k1, v1⟩ := kv
    by_cases h : k1 = k <;>
      simp [mapHas_cons, mapGet_cons, h, ih]

theorem mapGet_eq_some_mem {α : Type} {m : List (String × α)} {k : String}
    {v : α} (h : mapGet m k = some v) : (k, v) ∈ m := by
  induction m with
  | nil => cases h
  | cons kv rest ih =>
    obtain ⟨k1, v1⟩ := kv
    rw [mapGet_cons] at h
    by_cases hk : k1 = k
    · rw [if_pos hk] at h
      cases h
      cases hk
      exact List.mem_cons_self _ _
    · rw [if_neg hk] at h
      exact List.mem_cons_of_mem _ (ih h)

theorem mapGet_map_update {α : Type} (k : String) (v : α) :
    ∀ (m : List (String × α)), mapHas m k = true →
      mapGet (m.map (fun kv => if kv.1 = k then (k, v) else kv)) k = some v := by
  intro m
  induction m with
  | nil => intro h; simp [mapHas] at h
  | cons kv rest ih =>
    obtain ⟨k1, v1⟩ := kv
    intro h
    by_cases hk : k1 = k
    · simp [hk, mapGet_cons]
    · rw [mapHas_cons] at h
      have hrest : mapHas rest k = true := by
        simpa [hk] using h
      simpa [hk, mapGet_cons] using ih hrest

theorem mapGet_append_single {α : Type} (k : String) (v : α) :
    ∀ (m : List (String × α)), mapHas m k = false →
      mapGet (m ++ [(k, v)]) k = some v := by
  intro m
  induction m with
  | nil => intro _; simp [mapGet_cons]
  | cons kv rest ih =>
    obtain ⟨k1, v1⟩ := kv
    intro h
    rw [mapHas_cons] at h
    have hk : ¬(k1 = k) := by
      intro hEq
      simp [hEq] at h
    have hrest : mapHas rest k = false := by
      simpa [hk] using h
    simpa [mapGet_cons, hk] using ih hrest

theorem mapGet_mapSet_self {α : Type} (m : List (String × α)) (k : String)
    (v : α) : mapGet (mapSet m k v) k = some v := by
  unfold mapSet
  cases h : mapHas m k with
  | true => simpa [h] using mapGet_map_update k v m h
  | false => simpa [h] using mapGet_append_single k v m h

theorem mapSet_append_of_get_none {α : Type} {m : List (String × α)}
    {k : String} (v : α) (h : mapGet m k = none) :
    mapSet m k v = m ++ [(k, v)] := by
  unfold mapSet
  have hhas : mapHas m k = false := (mapHas_false_iff m k).mpr h
  simp [hhas]

/-! ### Claim C1 — metrics recorded exactly once per finished session -/

/-- Claim C1: the claim states that a terminal session's metrics are folded
into the aggregate exactly once, and that killing a `starting` session
records its metrics exactly once with later redundant persists leaving
every metric unchanged.  The code records them TWICE on `kill` — once
directly and once more inside `persistSession`, whose already-persisted
guard runs before anything is stored — and, for a session with no
correlation id, a third time on the next `cleanup` persist: killing the
fresh `starting` session `demoSession` yields a `killed` count of 2 and a
doubled duration sum, and a later cleanup persist makes the count 3. -/
theorem C1_kill_records_metrics_twice :
    (kill 1000 demoManager "s1").1.metrics.sessionsByStatus.killed = 2 ∧
    (kill 1000 demoManager "s1").1.metrics.sessionsWithDuration = 2 ∧
    (kill 1000 demoManager "s1").1.metrics.totalDurationMs = 2000 ∧
    (cleanup 99999999 (kill 1000 demoManager "s1").1).metrics.sessionsByStatus.killed = 3 := by
  refine ⟨?_, ?_, ?_, ?_⟩ <;> decide

/-! ### Claim C2 — killAll and notification dispatch -/

/-- Claim C2: the claim (and the repository API documentation) states that
`killAll` performs no notification or agent-event dispatch.  The code
routes every active session through `SessionManager.kill`, which sends the
router completion notification and the terminal observer message: on a
manager with one running session, `killAll` emits `onSessionComplete` and a
channel message.  The remainder of the claim does hold and is also
witnessed here: afterwards the session is `killed` (none is `starting` or
`running`) and the pending-retry-timer set is empty. -/
theorem C2_killAll_dispatches_notifications :
    Effect.onSessionComplete "s1" ∈ (killAll 1000 mRunning).2 ∧
    hasObserverMsg (killAll 1000 mRunning).2 = true ∧
    (killAll 1000 mRunning).1.pendingRetryTimers = [] ∧
    ((mapValues (killAll 1000 mRunning).1.sessions).all
      (fun s => !(s.status = .starting ∨ s.status = .running : Bool))) = true := by
  refine ⟨?_, ?_, ?_, ?_⟩ <;> decide

/-! ### Dispatch-shape facts -/

theorem deliverToTelegram_obs (m : ManagerState) (s : Session) (t : String) :
    hasObserverMsg (deliverToTelegram m s t) = m.notificationRouter := by
  unfold deliverToTelegram hasObserverMsg
  cases m.notificationRouter <;> simp [Effect.isObserverMsg]

theorem deliverToTelegram_noWake (m : ManagerState) (s : Session) (t : String) :
    hasWakeAttempt (deliverToTelegram m s t) = false := by
  unfold deliverToTelegram hasWakeAttempt
  cases m.notificationRouter <;>
    simp [Effect.isWakeAttempt, Effect.isDirectWake, Effect.isBroadcastWake]

theorem deliverToTelegram_noDirect (m : ManagerState) (s : Session) (t : String) :
    hasDirectWake (deliverToTelegram m s t) = false := by
  unfold deliverToTelegram hasDirectWake
  cases m.notificationRouter <;> simp [Effect.isDirectWake]

theorem deliverToTelegram_noBroadcast (m : ManagerState) (s : Session) (t : String) :
    hasBroadcastWake (deliverToTelegram m s t) = false := by
  unfold deliverToTelegram hasBroadcastWake
  cases m.notificationRouter <;> simp [Effect.isBroadcastWake]

theorem wakeAgent_obs (m : ManagerState) (s : Session) (a b : String) :
    hasObserverMsg (wakeAgent m s a b) = m.notificationRouter := by
  unfold wakeAgent deliverToTelegram fireSystemEventWithRetry
  cases ho : s.originAgentId with
  | none =>
    cases m.notificationRouter <;> simp [hasObserverMsg, Effect.isObserverMsg]
  | some aid =>
    by_cases ht : strTrim aid = ""
    · cases m.notificationRouter <;>
        simp [ht, hasObserverMsg, Effect.isObserverMsg]
    · cases m.notificationRouter <;>
        simp [ht, hasObserverMsg, Effect.isObserverMsg]

theorem wakeAgent_wake (m : ManagerState) (s : Session) (a b : String) :
    hasWakeAttempt (wakeAgent m s a b) = true := by
  unfold wakeAgent deliverToTelegram fireSystemEventWithRetry
  cases ho : s.originAgentId with
  | none =>
    cases m.notificationRouter <;>
      simp [hasWakeAttempt, Effect.isWakeAttempt, Effect.isDirectWake,
        Effect.isBroadcastWake, Effect.isObserverMsg]
  | some aid =>
    by_cases ht : strTrim aid = ""
    · cases m.notificationRouter <;>
        simp [ht, hasWakeAttempt, Effect.isWakeAttempt, Effect.isDirectWake,
          Effect.isBroadcastWake, Effect.isObserverMsg]
    · cases m.notificationRouter <;>
        simp [ht, hasWakeAttempt, Effect.isWakeAttempt, Effect.isDirectWake,
          Effect.isBroadcastWake, Effect.isObserverMsg]

theorem wakeAgent_direct (m : ManagerState) (s : Session) (a b : String) :
    hasDirectWake (wakeAgent m s a b) = agentIdKnown s := by
  unfold wakeAgent deliverToTelegram fireSystemEventWithRetry agentIdKnown
  cases ho : s.originAgentId with
  | none =>
    cases m.notificationRouter <;> simp [hasDirectWake, Effect.isDirectWake]
  | some aid =>
    by_cases ht : strTrim aid = ""
    · cases m.notificationRouter <;>
        simp [ht, hasDirectWake, Effect.isDirectWake]
    · cases m.notificationRouter <;>
        simp [ht, hasDirectWake, Effect.isDirectWake]

theorem wakeAgent_broadcast (m : ManagerState) (s : Session) (a b : String) :
    hasBroadcastWake (wakeAgent m s a b) = !agentIdKnown s := by
  unfold wakeAgent deliverToTelegram fireSystemEventWithRetry agentIdKnown
  cases ho : s.originAgentId with
  | none =>
    cases m.notificationRouter <;>
      simp [hasBroadcastWake, Effect.isBroadcastWake]
  | some aid =>
    by_cases ht : strTrim aid = ""
    · cases m.notificationRouter <;>
        simp [ht, hasBroadcastWake, Effect.isBroadcastWake]
    · cases m.notificationRouter <;>
        simp [ht, hasBroadcastWake, Effect.isBroadcastWake]

theorem triggerWaiting_blocked {m : ManagerState} {s : Session} {now : Nat}
    (h : debounceBlocked (mapGet m.lastWaitingEventTimestamps s.id) now = true) :
    triggerWaitingForInputEvent now m s =
      (m, deliverToTelegram m s (waitingTelegramText s)) := by
  unfold triggerWaitingForInputEvent
  rw [if_pos h]

theorem triggerWaiting_free {m : ManagerState} {s : Session} {now : Nat}
    (h : debounceBlocked (mapGet m.lastWaitingEventTimestamps s.id) now = false) :
    triggerWaitingForInputEvent now m s =
      (stampWaiting now m s,
       wakeAgent (stampWaiting now m s) s (waitingEventText s)
         (waitingTelegramText s)) := by
  unfold triggerWaitingForInputEvent
  rw [if_neg (by simp [h])]

/-! ### Claim C6 — outward dispatch classified by terminal status -/

/-- Claim C6: on a completed session `triggerAgentEvent` sends the origin
observer message AND attempts an out-of-band agent wake — direct-addressed
exactly when an owning-agent id is known, else the broadcast fallback — and
on a failed or killed session it sends only the observer message and
attempts no agent wake of any kind. -/
theorem claim_C6_terminal_dispatch (m : ManagerState) (s : Session)
    (hr : m.notificationRouter = true) :
    (s.status = .completed →
      hasObserverMsg (triggerAgentEvent m s).2 = true ∧
      hasWakeAttempt (triggerAgentEvent m s).2 = true ∧
      (agentIdKnown s = true →
        hasDirectWake (triggerAgentEvent m s).2 = true ∧
        hasBroadcastWake (triggerAgentEvent m s).2 = false) ∧
      (agentIdKnown s = false →
        hasBroadcastWake (triggerAgentEvent m s).2 = true ∧
        hasDirectWake (triggerAgentEvent m s).2 = false)) ∧
    ((s.status = .failed ∨ s.status = .killed) →
      hasObserverMsg (triggerAgentEvent m s).2 = true ∧
      hasWakeAttempt (triggerAgentEvent m s).2 = false) := by
  unfold triggerAgentEvent
  constructor
  · intro hc
    rw [if_pos hc]
    refine ⟨by rw [wakeAgent_obs, hr], by rw [wakeAgent_wake], ?_, ?_⟩
    · intro hk
      exact ⟨by rw [wakeAgent_direct, hk], by rw [wakeAgent_broadcast, hk]; rfl⟩
    · intro hk
      exact ⟨by rw [wakeAgent_broadcast, hk]; rfl, by rw [wakeAgent_direct, hk]⟩
  · intro hfk
    have hne : ¬(s.status = SessionStatus.completed) := by
      cases hfk with
      | inl h => rw [h]; intro hEq; cases hEq
      | inr h => rw [h]; intro hEq; cases hEq
    rw [if_neg hne]
    exact ⟨by rw [deliverToTelegram_obs, hr], by rw [deliverToTelegram_noWake]⟩

/-- Witness for C6 at concrete sessions: the completed session with a known
agent gets observer message and a direct wake; the killed session gets the
observer message and no wake. -/
theorem claim_C6_witness :
    hasObserverMsg (triggerAgentEvent demoManager sCompleted).2 = true ∧
    hasDirectWake (triggerAgentEvent demoManager sCompleted).2 = true ∧
    hasObserverMsg (triggerAgentEvent demoManager sKilled).2 = true ∧
    hasWakeAttempt (triggerAgentEvent demoManager sKilled).2 = false := by
  have h1 := claim_C6_terminal_dispatch demoManager sCompleted (by decide)
  have h2 := claim_C6_terminal_dispatch demoManager sKilled (by decide)
  have hc1 := h1.1 (by decide)
  have hc2 := h2.2 (Or.inr (by decide))
  exact ⟨hc1.1, (hc1.2.2.1 (by decide)).1, hc2.1, hc2.2⟩

/-! ### Claim C5 — waiting-for-input debounce -/

/-- Claim C5: for two waiting-for-input events on the same session, the
observer message is sent on both occurrences, but when the second arrives
less than 5 s after the first wake the out-of-band agent wake is attempted
only on the first; when it arrives 5 s or more after the last wake, the
wake is attempted again.  (`0 < t₁` reflects that JS `Date.now()` is a
positive epoch-millisecond count; a stored `0` would be falsy.) -/
theorem claim_C5_waiting_debounce (m : ManagerState) (s s₂ : Session)
    (t₁ t₂ : Nat)
    (hr : m.notificationRouter = true)
    (hid : s₂.id = s.id)
    (hfree : debounceBlocked (mapGet m.lastWaitingEventTimestamps s.id) t₁ = false)
    (hpos : 0 < t₁) :
    hasObserverMsg (triggerWaitingForInputEvent t₁ m s).2 = true ∧
    hasWakeAttempt (triggerWaitingForInputEvent t₁ m s).2 = true ∧
    (t₂ - t₁ < WAITING_EVENT_DEBOUNCE_MS →
      hasObserverMsg
        (triggerWaitingForInputEvent t₂ (triggerWaitingForInputEvent t₁ m s).1 s₂).2 = true ∧
      hasWakeAttempt
        (triggerWaitingForInputEvent t₂ (triggerWaitingForInputEvent t₁ m s).1 s₂).2 = false) ∧
    (WAITING_EVENT_DEBOUNCE_MS ≤ t₂ - t₁ →
      hasWakeAttempt
        (triggerWaitingForInputEvent t₂ (triggerWaitingForInputEvent t₁ m s).1 s₂).2 = true) := by
  have hstep1 := triggerWaiting_free hfree
  have hget :
      mapGet (triggerWaitingForInputEvent t₁ m s).1.lastWaitingEventTimestamps
        s₂.id = some t₁ := by
    rw [hstep1, hid]
    exact mapGet_mapSet_self _ _ _
  refine ⟨?_, ?_, ?_, ?_⟩
  · rw [hstep1, wakeAgent_obs]
    exact hr
  · rw [hstep1, wakeAgent_wake]
  · intro hlt
    have hblocked :
        debounceBlocked
          (mapGet (triggerWaitingForInputEvent t₁ m s).1.lastWaitingEventTimestamps
            s₂.id) t₂ = true := by
      rw [hget]
      unfold debounceBlocked
      simp only [Bool.and_eq_true, bne_iff_ne, ne_eq, decide_eq_true_eq]
      exact ⟨by omega, hlt⟩
    rw [triggerWaiting_blocked hblocked]
    constructor
    · rw [deliverToTelegram_obs, hstep1]
      exact hr
    · rw [deliverToTelegram_noWake]
  · intro hge
    have hblocked :
        debounceBlocked
          (mapGet (triggerWaitingForInputEvent t₁ m s).1.lastWaitingEventTimestamps
            s₂.id) t₂ = false := by
      rw [hget]
      unfold debounceBlocked
      simp only [Bool.and_eq_false_iff]
      right
      simp only [decide_eq_false_iff_not, not_lt]
      exact hge
    rw [triggerWaiting_free hblocked, wakeAgent_wake]

/-- Witness for C5: a first waiting event at t=100 wakes; a second on the
same session at t=4000 (3.9 s later) repeats the observer message but not
the wake. -/
theorem claim_C5_witness :
    hasObserverMsg (triggerWaitingForInputEvent 100 demoManager demoSession).2 = true ∧
    hasWakeAttempt (triggerWaitingForInputEvent 100 demoManager demoSession).2 = true ∧
    hasObserverMsg
      (triggerWaitingForInputEvent 4000
        (triggerWaitingForInputEvent 100 demoManager demoSession).1 demoSession).2 = true ∧
    hasWakeAttempt
      (triggerWaitingForInputEvent 4000
        (triggerWaitingForInputEvent 100 demoManager demoSession).1 demoSession).2 = false := by
  have h := claim_C5_waiting_debounce demoManager demoSession demoSession 100 4000
    (by decide) rfl (by decide) (by decide)
  have hboth := h.2.2.1 (by decide)
  exact ⟨h.1, h.2.1, hboth.1, hboth.2⟩

/-! ### Claim C9 — sessions without a correlation id are never persisted -/

/-- Claim C9: when a session's correlation id was never set,
`persistSession` stores no record under any key — the persisted map, the
persisted listing and every alias lookup are unchanged — even though it
still records the session's metrics whenever no record for the session id
exists (in particular on the first call). -/
theorem claim_C9_no_correlation_no_record (m : ManagerState) (s : Session)
    (h : s.claudeSessionId = none) :
    (persistSession m s).persistedSessions = m.persistedSessions ∧
    listPersistedSessions (persistSession m s) = listPersistedSessions m ∧
    (∀ ref, getPersistedSession (persistSession m s) ref =
      getPersistedSession m ref) ∧
    (mapHas m.persistedSessions s.id = false →
      (persistSession m s).metrics = recordSessionMetrics m.metrics s) ∧
    (mapHas m.persistedSessions s.id = true →
      (persistSession m s).metrics = m.metrics) := by
  unfold persistSession
  rw [h]
  cases hp : mapHas m.persistedSessions s.id <;>
    simp [hp, listPersistedSessions, getPersistedSession]

/-- Witness for C9: persisting the starting session (no correlation id)
stores nothing but folds its metrics into the aggregate. -/
theorem claim_C9_witness :
    (persistSession demoManager demoSession).persistedSessions = [] ∧
    (persistSession demoManager demoSession).metrics =
      recordSessionMetrics demoManager.metrics demoSession := by
  have h := claim_C9_no_correlation_no_record demoManager demoSession rfl
  exact ⟨h.1.trans rfl, h.2.2.2.1 (by decide)⟩

/-! ### Claim C4 — spawn capacity check -/

/-- Claim C4: `spawn` fails with the capacity error exactly when the number
of `starting`/`running` pooled sessions is at least the configured maximum;
on failure the state (pool, persisted records and every counter) is
untouched and nothing is emitted; otherwise exactly one new `starting`
session is appended to the pool and only the launch counter changes. -/
theorem claim_C4_spawn_capacity (config : SessionConfig) (newId : String)
    (now : Nat) (m : ManagerState)
    (hfresh : mapGet m.sessions newId = none) :
    ((∃ e, (spawn config newId now m).result = Except.error e) ↔
       activeCount m ≥ m.maxSessions) ∧
    (activeCount m ≥ m.maxSessions →
       (spawn config newId now m).state = m ∧
       (spawn config newId now m).effects = []) ∧
    (activeCount m < m.maxSessions →
       ∃ s, (spawn config newId now m).result = Except.ok s ∧
         s.id = newId ∧ s.status = .starting ∧
         (spawn config newId now m).state.sessions = m.sessions ++ [(newId, s)] ∧
         (spawn config newId now m).state.metrics.totalLaunched =
           m.metrics.totalLaunched + 1 ∧
         (spawn config newId now m).state.persistedSessions =
           m.persistedSessions ∧
         (spawn config newId now m).state.metrics.totalCostUsd =
           m.metrics.totalCostUsd ∧
         (spawn config newId now m).state.metrics.sessionsByStatus =
           m.metrics.sessionsByStatus ∧
         (spawn config newId now m).state.metrics.costPerDay =
           m.metrics.costPerDay) := by
  by_cases hcap : activeCount m ≥ m.maxSessions
  · unfold spawn
    rw [if_pos hcap]
    refine ⟨⟨fun _ => hcap, fun _ => ⟨_, rfl⟩⟩, fun _ => ⟨rfl, rfl⟩, ?_⟩
    intro hlt
    exact absurd hcap (by omega)
  · unfold spawn
    rw [if_neg hcap]
    refine ⟨⟨?_, fun hge => absurd hge hcap⟩, fun hge => absurd hge hcap, ?_⟩
    · rintro ⟨e, he⟩
      cases he
    · intro _
      refine ⟨_, rfl, rfl, rfl, ?_, rfl, rfl, rfl, rfl, rfl⟩
      exact mapSet_append_of_get_none _ hfresh

/-- Witness for C4: spawning into the non-full `demoManager` succeeds and
bumps only the launch counter. -/
theorem claim_C4_witness :
    (¬ ∃ e, (spawn cfgBuild "n1" 0 demoManager).result = Except.error e) ∧
    (spawn cfgBuild "n1" 0 demoManager).state.metrics.totalLaunched =
      demoManager.metrics.totalLaunched + 1 := by
  have h := claim_C4_spawn_capacity cfgBuild "n1" 0 demoManager (by decide)
  constructor
  · intro he
    exact absurd (h.1.mp he) (by decide)
  · obtain ⟨s, _, _, _, _, hL, _⟩ := h.2.2 (by decide)
    exact hL

/-! ### Claim C10 — claude_respond auto-respond cap -/

/-- Claim C10: the `claude_respond` tool rejects any call on a non-running
session with no message sent; an agent-initiated call on a session whose
auto-respond counter has reached the configured maximum (default 10)
returns the warning, sends nothing and leaves the state unchanged; a
user-initiated call resets the counter to zero and sends; a successful
agent-initiated send increments the counter by one. -/
theorem claim_C10_auto_respond_cap (maxA : Option Nat) (p : RespondParams)
    (sendOk : Bool) (m : ManagerState) :
    (resolve m p.session = none →
       claudeRespondExec maxA p sendOk m = (.notFound, m, [])) ∧
    (∀ s, resolve m p.session = some s → s.status ≠ .running →
       claudeRespondExec maxA p sendOk m = (.notRunning, m, [])) ∧
    (∀ s, resolve m p.session = some s → s.status = .running →
       p.userInitiated = false → s.autoRespondCount ≥ maxA.getD 10 →
       claudeRespondExec maxA p sendOk m = (.limitReached, m, [])) ∧
    (∀ s, resolve m p.session = some s → s.status = .running →
       p.userInitiated = true → sendOk = true →
       (claudeRespondExec maxA p sendOk m).1 = .sent ∧
       hasSessionSend (claudeRespondExec maxA p sendOk m).2.2 = true ∧
       mapGet (claudeRespondExec maxA p sendOk m).2.1.sessions s.id =
         some s.resetAutoRespond) ∧
    (∀ s, resolve m p.session = some s → s.status = .running →
       p.userInitiated = false → s.autoRespondCount < maxA.getD 10 →
       sendOk = true →
       (claudeRespondExec maxA p sendOk m).1 = .sent ∧
       hasSessionSend (claudeRespondExec maxA p sendOk m).2.2 = true ∧
       mapGet (claudeRespondExec maxA p sendOk m).2.1.sessions s.id =
         some s.incrementAutoRespond) := by
  refine ⟨?_, ?_, ?_, ?_, ?_⟩
  · intro hres
    unfold claudeRespondExec
    rw [hres]
  · intro s hres hstat
    unfold claudeRespondExec
    rw [hres]
    dsimp only
    rw [if_pos hstat]
  · intro s hres hstat hu hcap
    unfold claudeRespondExec
    rw [hres]
    dsimp only
    rw [if_neg (by simp [hstat]), if_neg (by simp [hu]), if_pos hcap]
  · intro s hres hstat hu hsend
    unfold claudeRespondExec
    rw [hres]
    dsimp only
    rw [if_neg (by simp [hstat]), if_pos hu, if_pos hsend]
    exact ⟨rfl, by simp [hasSessionSend, List.any_append],
      mapGet_mapSet_self _ _ _⟩
  · intro s hres hstat hu hcap hsend
    unfold claudeRespondExec
    rw [hres]
    dsimp only
    rw [if_neg (by simp [hstat]), if_neg (by simp [hu]),
      if_neg (by omega), if_pos hsend]
    exact ⟨rfl, by simp [hasSessionSend, List.any_append],
      mapGet_mapSet_self _ _ _⟩

/-- Witness for C10: on the capped running session the agent-initiated call
returns the warning and changes nothing; on the fresh running session it
sends and bumps the counter to 1. -/
theorem claim_C10_witness :
    claudeRespondExec none respondParams true mMaxed =
      (.limitReached, mMaxed, []) ∧
    mapGet (claudeRespondExec none respondParams true mRunning).2.1.sessions
      "s1" = some (sRunning.incrementAutoRespond) := by
  have h1 := (claim_C10_auto_respond_cap none respondParams true mMaxed).2.2.1
    sMaxed (by decide) (by decide) (by decide) (by decide)
  have h2 := (claim_C10_auto_respond_cap none respondParams true mRunning).2.2.2.2
    sRunning (by decide) (by decide) (by decide) (by decide) (by decide)
  exact ⟨h1, h2.2.2⟩

/-! ### Claim C8 — three-tier resolution of the correlation id -/

/-- Claim C8: `resolveClaudeSessionId` returns, in order, the correlation
id of a live session resolved by id or name when it has one; else the
correlation id of a persisted record reachable under the reference; else
the reference itself exactly when it has the 8-4-4-4-12 hex UUID shape;
otherwise nothing. -/
theorem claim_C8_three_tier (m : ManagerState) (ref : String) :
    (∀ s, resolve m ref = some s → jsTruthyOptStr s.claudeSessionId = true →
       resolveClaudeSessionId m ref = s.claudeSessionId) ∧
    ((∀ s, resolve m ref = some s → jsTruthyOptStr s.claudeSessionId = false) →
     ∀ info, getPersistedSession m ref = some info → info.claudeSessionId ≠ "" →
       resolveClaudeSessionId m ref = some info.claudeSessionId) ∧
    ((∀ s, resolve m ref = some s → jsTruthyOptStr s.claudeSessionId = false) →
     (∀ info, getPersistedSession m ref = some info → info.claudeSessionId = "") →
       resolveClaudeSessionId m ref =
         if isUuidShape ref then some ref else none) := by
  refine ⟨?_, ?_, ?_⟩
  · intro s hres htruthy
    unfold resolveClaudeSessionId
    rw [hres]
    dsimp only
    rw [if_pos htruthy]
  · intro hlive info hper hne
    unfold resolveClaudeSessionId
    cases hres : resolve m ref with
    | none =>
      dsimp only
      rw [hper]
      dsimp only
      rw [if_pos (by simpa using hne)]
    | some s =>
      dsimp only
      rw [if_neg (by rw [hlive s hres]; intro hEq; cases hEq), hper]
      dsimp only
      rw [if_pos (by simpa using hne)]
  · intro hlive hper
    unfold resolveClaudeSessionId
    cases hres : resolve m ref with
    | none =>
      dsimp only
      cases hpg : getPersistedSession m ref with
      | none => rfl
      | some info =>
        dsimp only
        rw [if_neg (by simp [hper info hpg])]
    | some s =>
      dsimp only
      rw [if_neg (by rw [hlive s hres]; intro hEq; cases hEq)]
      cases hpg : getPersistedSession m ref with
      | none => rfl
      | some info =>
        dsimp only
        rw [if_neg (by simp [hper info hpg])]

/-- Witness for C8: in `mC3` no live session exists, so the persisted
record stored under the alias key `n2` resolves to its correlation id. -/
theorem claim_C8_witness :
    resolveClaudeSessionId mC3 "n2" = some "c2" := by
  have h := (claim_C8_three_tier mC3 "n2").2.1
  have hres : resolve mC3 "n2" = none := by decide
  have := h (fun s hs => by rw [hres] at hs; cases hs)
    (infoOf "c2" "n2" 200) (by decide) (by decide)
  exact this

/-! ### Claim C7 — numeric-suffix name deduplication -/

theorem natToCharsFuel_irrel :
    ∀ fuel₁ n, n ≤ fuel₁ → ∀ fuel₂, n ≤ fuel₂ →
      natToCharsFuel fuel₁ n = natToCharsFuel fuel₂ n := by
  intro fuel₁
  induction fuel₁ with
  | zero =>
    intro n hn fuel₂ _
    have hn0 : n = 0 := by omega
    cases fuel₂ with
    | zero => rfl
    | succ f => rw [hn0]; rfl
  | succ f₁ ih =>
    intro n hn fuel₂ hn₂
    cases fuel₂ with
    | zero =>
      have hn0 : n = 0 := by omega
      rw [hn0]; rfl
    | succ f₂ =>
      show (if n < 10 then [natDigitChar n]
            else natToCharsFuel f₁ (n / 10) ++ [natDigitChar (n % 10)]) =
          (if n < 10 then [natDigitChar n]
            else natToCharsFuel f₂ (n / 10) ++ [natDigitChar (n % 10)])
      by_cases h : n < 10
      · rw [if_pos h, if_pos h]
      · rw [if_neg h, if_neg h,
          ih (n / 10) (by omega) f₂ (by omega)]

theorem natToChars_eq (n : Nat) :
    natToChars n =
      if n < 10 then [natDigitChar n]
      else natToChars (n / 10) ++ [natDigitChar (n % 10)] := by
  unfold natToChars
  by_cases h : n < 10
  · rw [if_pos h]
    cases n with
    | zero => rfl
    | succ m =>
      show (if m + 1 < 10 then [natDigitChar (m + 1)]
            else natToCharsFuel m ((m + 1) / 10) ++ [natDigitChar ((m + 1) % 10)]) = _
      rw [if_pos h]
  · rw [if_neg h]
    cases n with
    | zero => omega
    | succ m =>
      show (if m + 1 < 10 then [natDigitChar (m + 1)]
            else natToCharsFuel m ((m + 1) / 10) ++ [natDigitChar ((m + 1) % 10)]) = _
      rw [if_neg h,
        natToCharsFuel_irrel m ((m + 1) / 10) (by omega) ((m + 1) / 10) (by omega)]

theorem natToChars_ne_nil (n : Nat) : natToChars n ≠ [] := by
  rw [natToChars_eq]
  by_cases h : n < 10 <;> simp [h]

theorem natDigitChar_inj :
    ∀ a, a < 10 → ∀ b, b < 10 → natDigitChar a = natDigitChar b → a = b := by
  intro a ha b hb h
  interval_cases a <;> interval_cases b <;> revert h <;> decide

theorem concat_inj {α : Type} {l₁ l₂ : List α} {x y : α}
    (h : l₁ ++ [x] = l₂ ++ [y]) : l₁ = l₂ ∧ x = y := by
  have hrev := congrArg List.reverse h
  simp only [List.reverse_append, List.reverse_singleton, List.singleton_append,
    List.cons.injEq] at hrev
  exact ⟨List.reverse_inj.mp hrev.2, hrev.1⟩

theorem natToChars_inj : ∀ a b : Nat, natToChars a = natToChars b → a = b := by
  intro a
  induction a using Nat.strong_induction_on with
  | _ a ih =>
    intro b h
    rw [natToChars_eq a, natToChars_eq b] at h
    by_cases ha : a < 10 <;> by_cases hb : b < 10
    · rw [if_pos ha, if_pos hb] at h
      simp only [List.cons.injEq, and_true] at h
      exact natDigitChar_inj a ha b hb h
    · rw [if_pos ha, if_neg hb] at h
      have hlen := congrArg List.length h
      cases hx : natToChars (b / 10) with
      | nil => exact absurd hx (natToChars_ne_nil _)
      | cons c cs => rw [hx] at hlen; simp at hlen
    · rw [if_neg ha, if_pos hb] at h
      have hlen := congrArg List.length h
      cases hx : natToChars (a / 10) with
      | nil => exact absurd hx (natToChars_ne_nil _)
      | cons c cs => rw [hx] at hlen; simp at hlen
    · rw [if_neg ha, if_neg hb] at h
      obtain ⟨hpre, hdig⟩ := concat_inj h
      have h1 : a / 10 = b / 10 :=
        ih (a / 10) (Nat.div_lt_self (by omega) (by omega)) (b / 10) hpre
      have h2 : a % 10 = b % 10 :=
        natDigitChar_inj (a % 10) (Nat.mod_lt a (by omega)) (b % 10)
          (Nat.mod_lt b (by omega)) hdig
      omega

theorem suffixName_inj (base : String) {i j : Nat}
    (h : suffixName base i = suffixName base j) : i = j := by
  apply natToChars_inj
  have hdata := congrArg String.data h
  unfold suffixName natToString at hdata
  simp only [String.data_append] at hdata
  exact List.append_cancel_left hdata

theorem exists_free_suffix (existing : List String) (base : String) :
    ∃ k, k ≤ existing.length ∧ suffixName base (2 + k) ∉ existing := by
  by_contra hall
  push_neg at hall
  have hinj : Function.Injective (fun k : Nat => suffixName base (2 + k)) := by
    intro x y hxy
    have := suffixName_inj base hxy
    omega
  have hnodup :
      ((List.range (existing.length + 1)).map
        (fun k => suffixName base (2 + k))).Nodup :=
    (List.nodup_range _).map hinj
  have hsub :
      ((List.range (existing.length + 1)).map
        (fun k => suffixName base (2 + k))) ⊆ existing := by
    intro x hx
    obtain ⟨k, hk, rfl⟩ := List.mem_map.mp hx
    exact hall k (by have := List.mem_range.mp hk; omega)
  have hlen :
      ((List.range (existing.length + 1)).map
        (fun k => suffixName base (2 + k))).length ≤ existing.length := by
    calc ((List.range (existing.length + 1)).map
          (fun k => suffixName base (2 + k))).length
        = ((List.range (existing.length + 1)).map
            (fun k => suffixName base (2 + k))).toFinset.card :=
          (List.toFinset_card_of_nodup hnodup).symm
      _ ≤ existing.toFinset.card := by
          apply Finset.card_le_card
          intro x hx
          rw [List.mem_toFinset] at hx ⊢
          exact hsub hx
      _ ≤ existing.length := existing.toFinset_card_le
  simp at hlen

theorem uniqueNameLoop_succ (existing : List String) (base : String)
    (fuel i : Nat) :
    uniqueNameLoop existing base (fuel + 1) i =
      if suffixName base i ∈ existing then
        uniqueNameLoop existing base fuel (i + 1)
      else i := rfl

theorem uniqueNameLoop_spec (existing : List String) (base : String) :
    ∀ fuel i, (∃ k, k < fuel ∧ suffixName base (i + k) ∉ existing) →
      i ≤ uniqueNameLoop existing base fuel i ∧
      suffixName base (uniqueNameLoop existing base fuel i) ∉ existing ∧
      ∀ j, i ≤ j → j < uniqueNameLoop existing base fuel i →
        suffixName base j ∈ existing := by
  intro fuel
  induction fuel with
  | zero =>
    rintro i ⟨k, hk, _⟩
    omega
  | succ fuel ih =>
    intro i hex
    by_cases hmem : suffixName base i ∈ existing
    · rw [uniqueNameLoop_succ, if_pos hmem]
      obtain ⟨k, hk, hfree⟩ := hex
      have hk0 : k ≠ 0 := by
        intro h0
        rw [h0, Nat.add_zero] at hfree
        exact hfree hmem
      have hstep : i + 1 + (k - 1) = i + k := by omega
      have ih' := ih (i + 1) ⟨k - 1, by omega, by rw [hstep]; exact hfree⟩
      refine ⟨by omega, ih'.2.1, ?_⟩
      intro j hij hjr
      by_cases hji : j = i
      · rw [hji]; exact hmem
      · exact ih'.2.2 j (by omega) hjr
    · rw [uniqueNameLoop_succ, if_neg hmem]
      exact ⟨Nat.le_refl i, hmem,
        fun j h1 h2 => absurd (Nat.lt_of_le_of_lt h1 h2) (Nat.lt_irrefl i)⟩

/-- Claim C7: spawned names are deduplicated against live pool names by
numeric suffixes: an unused base name is assigned verbatim, a colliding one
gets `base-i` for the smallest unused `i ≥ 2`; and three spawns that all
request the name `build` yield `build`, `build-2`, `build-3`. -/
theorem claim_C7_name_dedup :
    (∀ (pool : List Session) (base : String),
       base ∉ pool.map (fun s => s.name) →
       uniqueName pool base = base) ∧
    (∀ (pool : List Session) (base : String),
       base ∈ pool.map (fun s => s.name) →
       ∃ i, 2 ≤ i ∧ uniqueName pool base = suffixName base i ∧
         suffixName base i ∉ pool.map (fun s => s.name) ∧
         ∀ j, 2 ≤ j → j < i → suffixName base j ∈ pool.map (fun s => s.name)) ∧
    ((mapValues afterThreeBuilds.sessions).map (fun s => s.name) =
       ["build", "build-2", "build-3"]) := by
  refine ⟨?_, ?_, by decide⟩
  · intro pool base h
    unfold uniqueName
    rw [if_neg h]
  · intro pool base h
    unfold uniqueName
    rw [if_pos h]
    obtain ⟨k, hk, hfree⟩ :=
      exists_free_suffix (pool.map (fun s => s.name)) base
    have hspec := uniqueNameLoop_spec (pool.map (fun s => s.name)) base
      ((pool.map (fun s => s.name)).length + 1) 2 ⟨k, by omega, hfree⟩
    exact ⟨uniqueNameLoop (pool.map (fun s => s.name)) base
        ((pool.map (fun s => s.name)).length + 1) 2,
      hspec.1, rfl, hspec.2.1, fun j h2 hj => hspec.2.2 j h2 hj⟩

/-- Witness for C7: in a pool with the single live name `job`, a fresh base
is kept verbatim and the colliding base gets a minimal suffix. -/
theorem claim_C7_witness :
    uniqueName (mapValues mRunning.sessions) "x" = "x" ∧
    ∃ i, 2 ≤ i ∧
      uniqueName (mapValues mRunning.sessions) "job" = suffixName "job" i ∧
      suffixName "job" i ∉ (mapValues mRunning.sessions).map (fun s => s.name) ∧
      ∀ j, 2 ≤ j → j < i →
        suffixName "job" j ∈ (mapValues mRunning.sessions).map (fun s => s.name) := by
  exact ⟨claim_C7_name_dedup.1 (mapValues mRunning.sessions) "x" (by decide),
    claim_C7_name_dedup.2.1 (mapValues mRunning.sessions) "job" (by decide)⟩

/-! ### Claim C3 — eviction of persisted records beyond the cap -/

theorem mapValues_filter {α : Type} (p : α → Bool)
    (ps : List (String × α)) :
    mapValues (ps.filter (fun kv => p kv.2)) = (mapValues ps).filter p := by
  induction ps with
  | nil => rfl
  | cons kv rest ih =>
    by_cases h : p kv.2 <;>
      simp [mapValues, List.filter_cons, h] <;>
      simpa [mapValues] using ih

theorem evictFold_eq_filter (toEvict : List PersistedSessionInfo) :
    ∀ ps : List (String × PersistedSessionInfo),
      toEvict.foldl
        (fun ps info =>
          ps.filter (fun kv =>
            !(kv.2.claudeSessionId = info.claudeSessionId : Bool))) ps
      = ps.filter (fun kv =>
          !toEvict.any (fun info =>
            (kv.2.claudeSessionId = info.claudeSessionId : Bool))) := by
  induction toEvict with
  | nil => intro ps; simp
  | cons e rest ih =>
    intro ps
    rw [List.foldl_cons, ih, List.filter_filter]
    apply List.filter_congr
    intro kv _
    cases h1 : (kv.2.claudeSessionId = e.claudeSessionId : Bool) <;>
      cases h2 : rest.any (fun info =>
        (kv.2.claudeSessionId = info.claudeSessionId : Bool)) <;>
      simp [h1, h2]

theorem dedupeByCsid_cons (info : PersistedSessionInfo)
    (rest : List PersistedSessionInfo) (seen : List String) :
    dedupeByCsid (info :: rest) seen =
      if info.claudeSessionId ∈ seen then dedupeByCsid rest seen
      else info :: dedupeByCsid rest (info.claudeSessionId :: seen) := rfl

theorem dedupeByCsid_filter (q : String → Bool) :
    ∀ (l : List PersistedSessionInfo) (seen : List String),
      (dedupeByCsid l seen).filter (fun v => q v.claudeSessionId)
      = dedupeByCsid (l.filter (fun v => q v.claudeSessionId))
          (seen.filter q) := by
  intro l
  induction l with
  | nil => intro seen; rfl
  | cons info rest ih =>
    intro seen
    rw [dedupeByCsid_cons, List.filter_cons]
    by_cases hseen : info.claudeSessionId ∈ seen
    · rw [if_pos hseen]
      by_cases hq : q info.claudeSessionId
      · rw [if_pos hq, dedupeByCsid_cons,
          if_pos (List.mem_filter.mpr ⟨hseen, hq⟩)]
        exact ih seen
      · rw [if_neg hq]
        exact ih seen
    · rw [if_neg hseen]
      by_cases hq : q info.claudeSessionId
      · rw [if_pos hq, dedupeByCsid_cons,
          if_neg (fun hmem => hseen (List.mem_filter.mp hmem).1),
          List.filter_cons, if_pos hq]
        have : (info.claudeSessionId :: seen).filter q =
            info.claudeSessionId :: seen.filter q := by
          rw [List.filter_cons, if_pos hq]
        rw [← this, ih (info.claudeSessionId :: seen)]
      · rw [if_neg hq, List.filter_cons, if_neg hq]
        have : (info.claudeSessionId :: seen).filter q = seen.filter q := by
          rw [List.filter_cons, if_neg hq]
        rw [ih (info.claudeSessionId :: seen), this]

theorem dedupeByCsid_nodup :
    ∀ (l : List PersistedSessionInfo) (seen : List String),
      ((dedupeByCsid l seen).map
        (fun v => v.claudeSessionId)).Nodup ∧
      ∀ c ∈ (dedupeByCsid l seen).map (fun v => v.claudeSessionId),
        c ∉ seen := by
  intro l
  induction l with
  | nil =>
    intro seen
    exact ⟨List.nodup_nil, by intro c hc; cases hc⟩
  | cons info rest ih =>
    intro seen
    rw [dedupeByCsid_cons]
    by_cases h : info.claudeSessionId ∈ seen
    · rw [if_pos h]
      exact ih seen
    · rw [if_neg h]
      obtain ⟨hnodup, hseen⟩ := ih (info.claudeSessionId :: seen)
      constructor
      · simp only [List.map_cons, List.nodup_cons]
        exact ⟨fun hc => (hseen _ hc) (List.mem_cons_self _ _), hnodup⟩
      · intro c hc
        simp only [List.map_cons, List.mem_cons] at hc
        cases hc with
        | inl hEq => rw [hEq]; exact h
        | inr hmem =>
          intro hcs
          exact (hseen c hmem) (List.mem_cons_of_mem _ hcs)

/-- Strict version of the persisted-record order, for uniqueness of the
sorted listing when completion keys are distinct. -/
def byCompletedStrict (a b : PersistedSessionInfo) : Prop :=
  completedKey b < completedKey a

instance : IsTotal PersistedSessionInfo byCompletedDesc :=
  ⟨fun a b => Nat.le_total (completedKey b) (completedKey a)⟩

instance : IsTrans PersistedSessionInfo byCompletedDesc :=
  ⟨fun _ _ _ h1 h2 => Nat.le_trans h2 h1⟩

instance : IsTrans PersistedSessionInfo byCompletedStrict :=
  ⟨fun _ _ _ h1 h2 => Nat.lt_trans h2 h1⟩

instance : IsAntisymm PersistedSessionInfo byCompletedStrict :=
  ⟨fun _ _ h1 h2 => absurd h2 (Nat.lt_asymm h1)⟩

theorem sorted_strict_of_nodup_keys {l : List PersistedSessionInfo}
    (hs : List.Sorted byCompletedDesc l)
    (hn : (l.map completedKey).Nodup) :
    List.Sorted byCompletedStrict l := by
  have hne : l.Pairwise (fun a b => completedKey a ≠ completedKey b) :=
    List.pairwise_map.mp hn
  exact (List.Pairwise.and hs hne).imp
    (fun h => Nat.lt_of_le_of_ne h.1 (Ne.symm h.2))

theorem cleanupEvict_spec (m : ManagerState)
    (hcap : (listPersistedSessions m).length > m.maxPersistedSessions)
    (hkeys : ((listPersistedSessions m).map completedKey).Nodup) :
    listPersistedSessions (cleanupEvict m) =
      (listPersistedSessions m).take m.maxPersistedSessions ∧
    ∀ info ∈ (listPersistedSessions m).drop m.maxPersistedSessions,
      ∀ ref rec, getPersistedSession (cleanupEvict m) ref = some rec →
        rec.claudeSessionId ≠ info.claudeSessionId := by
  have hps : (cleanupEvict m).persistedSessions =
      m.persistedSessions.filter (fun kv =>
        !((listPersistedSessions m).drop m.maxPersistedSessions).any
          (fun info => (kv.2.claudeSessionId = info.claudeSessionId : Bool))) := by
    unfold cleanupEvict
    dsimp only
    rw [if_pos hcap]
    exact evictFold_eq_filter _ _
  have hvals : mapValues (cleanupEvict m).persistedSessions =
      (mapValues m.persistedSessions).filter (fun v =>
        !((listPersistedSessions m).drop m.maxPersistedSessions).any
          (fun info => (v.claudeSessionId = info.claudeSessionId : Bool))) := by
    rw [hps]
    exact mapValues_filter
      (fun v =>
        !((listPersistedSessions m).drop m.maxPersistedSessions).any
          (fun info => (v.claudeSessionId = info.claudeSessionId : Bool)))
      m.persistedSessions
  have hded : dedupeByCsid (mapValues (cleanupEvict m).persistedSessions) [] =
      (dedupeByCsid (mapValues m.persistedSessions) []).filter (fun v =>
        !((listPersistedSessions m).drop m.maxPersistedSessions).any
          (fun info => (v.claudeSessionId = info.claudeSessionId : Bool))) := by
    rw [hvals]
    exact (dedupeByCsid_filter
      (fun c => !((listPersistedSessions m).drop m.maxPersistedSessions).any
        (fun info => (c = info.claudeSessionId : Bool)))
      (mapValues m.persistedSessions) []).symm
  have hUperm : List.Perm (listPersistedSessions m)
      (dedupeByCsid (mapValues m.persistedSessions) []) :=
    List.perm_insertionSort _ _
  have hDnodup : ((dedupeByCsid (mapValues m.persistedSessions) []).map
      (fun v => v.claudeSessionId)).Nodup :=
    (dedupeByCsid_nodup (mapValues m.persistedSessions) []).1
  have hUnodupC : ((listPersistedSessions m).map
      (fun v => v.claudeSessionId)).Nodup :=
    ((hUperm.map (fun v => v.claudeSessionId)).nodup_iff).mpr hDnodup
  have hUsplit : (listPersistedSessions m).take m.maxPersistedSessions ++
      (listPersistedSessions m).drop m.maxPersistedSessions =
      listPersistedSessions m :=
    List.take_append_drop _ _
  have hdisj :
      (((listPersistedSessions m).take m.maxPersistedSessions).map
        (fun v => v.claudeSessionId)).Disjoint
      (((listPersistedSessions m).drop m.maxPersistedSessions).map
        (fun v => v.claudeSessionId)) := by
    have hn2 : ((((listPersistedSessions m).take m.maxPersistedSessions).map
        (fun v => v.claudeSessionId)) ++
        (((listPersistedSessions m).drop m.maxPersistedSessions).map
          (fun v => v.claudeSessionId))).Nodup := by
      rw [← List.map_append, hUsplit]
      exact hUnodupC
    exact (List.nodup_append.mp hn2).2.2
  have hfilter_take :
      ((listPersistedSessions m).take m.maxPersistedSessions).filter (fun v =>
        !((listPersistedSessions m).drop m.maxPersistedSessions).any
          (fun info => (v.claudeSessionId = info.claudeSessionId : Bool))) =
      (listPersistedSessions m).take m.maxPersistedSessions := by
    apply List.filter_eq_self.mpr
    intro a ha
    have hnotin : a.claudeSessionId ∉
        (((listPersistedSessions m).drop m.maxPersistedSessions).map
          (fun v => v.claudeSessionId)) :=
      fun hmem => hdisj (List.mem_map_of_mem _ ha) hmem
    have hX : ((listPersistedSessions m).drop m.maxPersistedSessions).any
        (fun info => (a.claudeSessionId = info.claudeSessionId : Bool)) =
        false := by
      apply List.any_eq_false.mpr
      intro info hinfo
      simp only [decide_eq_true_eq, decide_eq_false_iff_not]
      intro hEq
      exact hnotin (by rw [hEq]; exact List.mem_map_of_mem _ hinfo)
    simp [hX]
  have hfilter_drop :
      ((listPersistedSessions m).drop m.maxPersistedSessions).filter (fun v =>
        !((listPersistedSessions m).drop m.maxPersistedSessions).any
          (fun info => (v.claudeSessionId = info.claudeSessionId : Bool))) =
      [] := by
    apply List.filter_eq_nil_iff.mpr
    intro a ha
    simp only [Bool.not_eq_true', List.any_eq_false, decide_eq_false_iff_not,
      not_forall]
    exact ⟨a, ha, by simp⟩
  have hUfilter : (listPersistedSessions m).filter (fun v =>
      !((listPersistedSessions m).drop m.maxPersistedSessions).any
        (fun info => (v.claudeSessionId = info.claudeSessionId : Bool))) =
      (listPersistedSessions m).take m.maxPersistedSessions := by
    have hstep : ((listPersistedSessions m).take m.maxPersistedSessions ++
        (listPersistedSessions m).drop m.maxPersistedSessions).filter (fun v =>
          !((listPersistedSessions m).drop m.maxPersistedSessions).any
            (fun info => (v.claudeSessionId = info.claudeSessionId : Bool))) =
        (listPersistedSessions m).take m.maxPersistedSessions := by
      rw [List.filter_append, hfilter_take, hfilter_drop, List.append_nil]
    rw [hUsplit] at hstep
    exact hstep
  have hperm2 : List.Perm
      ((dedupeByCsid (mapValues m.persistedSessions) []).filter
        (fun v =>
          !((listPersistedSessions m).drop m.maxPersistedSessions).any
            (fun info => (v.claudeSessionId = info.claudeSessionId : Bool))))
      ((listPersistedSessions m).take m.maxPersistedSessions) := by
    have := (hUperm.filter (fun v =>
      !((listPersistedSessions m).drop m.maxPersistedSessions).any
        (fun info => (v.claudeSessionId = info.claudeSessionId : Bool)))).symm
    rw [hUfilter] at this
    exact this
  have hUsorted : List.Sorted byCompletedDesc (listPersistedSessions m) :=
    List.sorted_insertionSort _ _
  have hTakeSorted : List.Sorted byCompletedDesc
      ((listPersistedSessions m).take m.maxPersistedSessions) :=
    List.Pairwise.sublist (List.take_sublist _ _) hUsorted
  have hTakeKeys : (((listPersistedSessions m).take
      m.maxPersistedSessions).map completedKey).Nodup := by
    rw [List.map_take]
    exact List.Nodup.sublist (List.take_sublist _ _) hkeys
  have hTakeStrict := sorted_strict_of_nodup_keys hTakeSorted hTakeKeys
  have hfinalPerm : List.Perm (listPersistedSessions (cleanupEvict m))
      ((listPersistedSessions m).take m.maxPersistedSessions) := by
    unfold listPersistedSessions
    rw [show dedupeByCsid (mapValues (cleanupEvict m).persistedSessions) [] =
        (dedupeByCsid (mapValues m.persistedSessions) []).filter (fun v =>
          !((listPersistedSessions m).drop m.maxPersistedSessions).any
            (fun info => (v.claudeSessionId = info.claudeSessionId : Bool)))
      from hded]
    exact (List.perm_insertionSort _ _).trans hperm2
  have hFinalSorted : List.Sorted byCompletedDesc
      (listPersistedSessions (cleanupEvict m)) :=
    List.sorted_insertionSort _ _
  have hFinalKeys : ((listPersistedSessions (cleanupEvict m)).map
      completedKey).Nodup :=
    ((hfinalPerm.map completedKey).nodup_iff).mpr
      (by rw [List.map_take]; exact List.Nodup.sublist (List.take_sublist _ _) hkeys)
  have hFinalStrict := sorted_strict_of_nodup_keys hFinalSorted hFinalKeys
  constructor
  · exact List.eq_of_perm_of_sorted hfinalPerm hFinalStrict hTakeStrict
  · intro info hinfo ref rec hget
    unfold getPersistedSession at hget
    rw [hps] at hget
    have hmem := mapGet_eq_some_mem hget
    have hpred := (List.mem_filter.mp hmem).2
    simp only [Bool.not_eq_true', List.any_eq_false,
      decide_eq_false_iff_not] at hpred
    intro hEq
    exact hpred info hinfo (by rw [hEq]; simp)

/-- Claim C3: after `cleanup`, when the deduplicated persisted-record count
(after the live-pool sweep) exceeds the cap, exactly the cap most recently
completed records remain, newest first (`listPersistedSessions` returns the
take of the pre-eviction listing), and no alias key resolves to an evicted
record.  The completion keys are assumed pairwise distinct, as in the
claim's scenario of distinct persisted sessions. -/
theorem claim_C3_eviction (now : Nat) (m : ManagerState)
    (hcap : (listPersistedSessions (cleanupLiveSweep now m)).length >
      (cleanupLiveSweep now m).maxPersistedSessions)
    (hkeys : ((listPersistedSessions (cleanupLiveSweep now m)).map
      completedKey).Nodup) :
    listPersistedSessions (cleanup now m) =
      (listPersistedSessions (cleanupLiveSweep now m)).take
        (cleanupLiveSweep now m).maxPersistedSessions ∧
    ∀ info ∈ (listPersistedSessions (cleanupLiveSweep now m)).drop
        (cleanupLiveSweep now m).maxPersistedSessions,
      ∀ ref rec, getPersistedSession (cleanup now m) ref = some rec →
        rec.claudeSessionId ≠ info.claudeSessionId :=
  cleanupEvict_spec (cleanupLiveSweep now m) hcap hkeys

/-- Witness for C3: with cap 2 and three distinct persisted sessions,
cleanup leaves exactly the two most recently completed (newest first), and
none of the three alias keys of the evicted record resolves. -/
theorem claim_C3_witness :
    listPersistedSessions (cleanup 0 mC3) =
      [infoOf "c3" "n3" 300, infoOf "c2" "n2" 200] ∧
    getPersistedSession (cleanup 0 mC3) "c1" = none ∧
    getPersistedSession (cleanup 0 mC3) "n1" = none ∧
    getPersistedSession (cleanup 0 mC3) "id1" = none := by
  have h := claim_C3_eviction 0 mC3 (by decide) (by decide)
  exact ⟨h.1.trans (by decide), by decide, by decide, by decide⟩

end ClaudePlugin
